import Mathlib

/-!
Shallow embedding of `compare_csv.py`, a script that loads two CSV files,
aligns their common numeric columns, and pages through per-column
comparison plots (an overlay chart, a difference chart, and a caption of
summary statistics) with Previous/Next/Quit buttons.

Values parsed from the CSV files, and numpy's float arithmetic, are
modelled exactly over `ℚ`.  The single irrational-producing operation of
the script, `ndarray.std` (a square root), is modelled over `ℝ`; those
few definitions are `noncomputable`, everything else evaluates.
-/

/-- Dtype content of one parsed CSV column: numeric (an `np.number`
dtype) or object (strings). -/
inductive ColData
  | nums (vals : List ℚ)
  | strs (vals : List String)

/-- Whether a column dtype is numeric, the test made by
`select_dtypes(include=[np.number])`. -/
def ColData.isNumeric : ColData → Bool
  | ColData.nums _ => true
  | ColData.strs _ => false

/-- A parsed table as produced by `pd.read_csv` (line 24-25): named
columns in header order.  `read_csv` mangles duplicate headers, so the
names are unique in every reachable table. -/
structure DataFrame where
  cols : List (String × ColData)

/-- The column names of a table, in header order (`df.columns`). -/
def DataFrame.columns (df : DataFrame) : List String :=
  df.cols.map (fun p => p.1)

/-- Column selection `df[names]` (lines 29-30 and 37-38): restrict and
reorder a table to the given names, looking each name up in `df`.  The
script only ever applies this to sublists of `df.columns`. -/
def DataFrame.select (df : DataFrame) (names : List String) : DataFrame :=
  ⟨names.filterMap (fun n =>
    (df.cols.find? (fun p => p.1 == n)).map (fun p => (n, p.2)))⟩

/-- The raw value sequence `segment[col].values` of a numeric column
(lines 56-57); `none` when no numeric column of that name exists. -/
def DataFrame.getCol (df : DataFrame) (name : String) : Option (List ℚ) :=
  match df.cols.find? (fun p => p.1 == name) with
  | some (_, ColData.nums vs) => some vs
  | _ => none

/-- Whether the column named `c` of `df` has numeric dtype. -/
def DataFrame.isNumericCol (df : DataFrame) (c : String) : Bool :=
  match df.cols.find? (fun p => p.1 == c) with
  | some p => ColData.isNumeric p.2
  | none => false

/-- Line 28, `df1.columns.intersection(df2.columns)`: the common column
names.  pandas `Index.intersection` with its default `sort=False`
preserves the calling index's order, so the result is in `df1`'s header
order. -/
def common_columns (df1 df2 : DataFrame) : List String :=
  df1.columns.filter (fun c => df2.columns.contains c)

/-- Line 33, `df.select_dtypes(include=[np.number]).columns.tolist()`:
the names of the numeric-dtype columns, in `df`'s column order. -/
def select_dtypes_number (df : DataFrame) : List String :=
  (df.cols.filter (fun p => ColData.isNumeric p.2)).map (fun p => p.1)

/-- Lines 28-33 combined: the working column list (the spec's
NumericColumnSet) for a pair of parsed tables. -/
def numerical_columns (df1 df2 : DataFrame) : List String :=
  select_dtypes_number (DataFrame.select df1 (common_columns df1 df2))

/-- The data handed from the Loader/Aligner to the Viewer: the working
column list and the two aligned numeric tables (lines 33-38). -/
structure LoaderOutput where
  numericalColumns : List String
  segment1 : DataFrame
  segment2 : DataFrame

/-- Lines 27-38: align the two parsed tables on their common columns,
keep the numeric ones, and fail when none remain. -/
def loader (df1 df2 : DataFrame) : Except String LoaderOutput :=
  let common := common_columns df1 df2
  let d1 := DataFrame.select df1 common
  let d2 := DataFrame.select df2 common
  let numCols := select_dtypes_number d1
  if numCols.isEmpty then
    Except.error "No numerical columns found in the data"
  else
    Except.ok ⟨numCols, DataFrame.select d1 numCols, DataFrame.select d2 numCols⟩

/-- Whether the Loader succeeded. -/
def loaderSucceeds (df1 df2 : DataFrame) : Bool :=
  match loader df1 df2 with
  | Except.ok _ => true
  | Except.error _ => false

/-- Lines 20-38 of the script: the existence check on the two paths
(modelled by the flags `ex1`, `ex2`), then the two `pd.read_csv` calls
(modelled by their outcomes `p1`, `p2`), then alignment.  The existence
check comes first, so the parse outcomes are consulted only when both
files exist. -/
def loadProgram (ex1 ex2 : Bool) (p1 p2 : Except String DataFrame) :
    Except String LoaderOutput :=
  if !(ex1 && ex2) then
    Except.error "One or both CSV files not found"
  else do
    let df1 ← p1
    let df2 ← p2
    loader df1 df2

/-- The Viewer's state: the loader output plus the only mutable state of
the script, the global `current_index` (line 41). -/
structure ViewerState where
  lo : LoaderOutput
  current_index : ℤ

/-- The whole start-up path: load, then construct the Viewer with its
cursor initialised to 0 (line 41).  On any load error no ViewerState is
ever constructed. -/
def mainState (ex1 ex2 : Bool) (p1 p2 : Except String DataFrame) :
    Except String ViewerState :=
  Except.map (fun lo => ⟨lo, 0⟩) (loadProgram ex1 ex2 p1 p2)

/-- Line 58, `diff = data2 - data1` with numpy semantics on 1-D arrays:
equal lengths subtract elementwise; a length-1 operand broadcasts
against the other; any other length mismatch raises (modelled `none`). -/
def npSub (b a : List ℚ) : Option (List ℚ) :=
  if b.length = a.length then
    some (List.zipWith (fun y x => y - x) b a)
  else
    match a, b with
    | [x], ys => some (ys.map (fun y => y - x))
    | xs, [y] => some (xs.map (fun x => y - x))
    | _, _ => none

/-- numpy `ndarray.mean`: the sum divided by the length. -/
def npMean (l : List ℚ) : ℚ := l.sum / l.length

/-- numpy's variance as computed by `ndarray.std` with its default
`ddof=0`: the mean of the squared deviations (divisor `n`). -/
def npVar (l : List ℚ) : ℚ := npMean (l.map (fun x => (x - npMean l) ^ 2))

/-- numpy `ndarray.std` with its default `ddof=0`: the square root of
the population variance. -/
noncomputable def npStd (l : List ℚ) : ℝ := Real.sqrt (npVar l)

/-- numpy `ndarray.max` on a nonempty array (raises on the empty one;
the `0` branch is unreachable in the script). -/
def npMax (l : List ℚ) : ℚ :=
  match l with
  | [] => 0
  | x :: xs => xs.foldl max x

/-- numpy `ndarray.min` on a nonempty array. -/
def npMin (l : List ℚ) : ℚ :=
  match l with
  | [] => 0
  | x :: xs => xs.foldl min x

/-- Direct recomputation of the arithmetic mean, written independently
as a left fold. -/
def specMean (l : List ℚ) : ℚ := (l.foldl (fun s x => s + x) 0) / l.length

/-- Direct recomputation of the population variance (divisor `n`). -/
def specVar (l : List ℚ) : ℚ :=
  ((l.map (fun x => (x - specMean l) ^ 2)).foldl (fun s x => s + x) 0) / l.length

/-- Direct recomputation of the population standard deviation
(divisor `n`). -/
noncomputable def specStd (l : List ℚ) : ℝ := Real.sqrt (specVar l)

/-- Direct recomputation of the maximum of a nonempty sequence. -/
def specMax (l : List ℚ) : ℚ := (l.max?).getD 0

/-- Direct recomputation of the minimum of a nonempty sequence. -/
def specMin (l : List ℚ) : ℚ := (l.min?).getD 0

/-- Modelled from the spec: the sample standard deviation, with divisor
`n - 1`, which §4.2 of the spec names as the statistic shown in the
caption. -/
noncomputable def sampleStd (l : List ℚ) : ℝ :=
  Real.sqrt ((((l.map (fun x => (x - specMean l) ^ 2)).foldl (fun s x => s + x) 0)
    / ((l.length : ℚ) - 1) : ℚ))

/-- Round to the nearest integer, ties to even: the rounding of a
Python `.4f` format at the shifted scale. -/
def rne (x : ℚ) : ℤ :=
  let n := Int.floor x
  if x - n < 1 / 2 then n
  else if 1 / 2 < x - n then n + 1
  else if n % 2 = 0 then n else n + 1

/-- Python string formatting `:.4f` on an exact rational value: round
to 4 decimal places, ties to even. -/
def fmt4 (x : ℚ) : ℚ := (rne (x * 10000) : ℚ) / 10000

/-- Round a real to the nearest integer, ties to even. -/
noncomputable def rneR (x : ℝ) : ℤ :=
  let n := Int.floor x
  if x - n < 1 / 2 then n
  else if 1 / 2 < x - n then n + 1
  else if n % 2 = 0 then n else n + 1

/-- Python string formatting `:.4f` on a real value. -/
noncomputable def fmt4R (x : ℝ) : ℝ := (rneR (x * 10000) : ℝ) / 10000

/-- The figure caption state set by lines 82-88: the column name and the
four raw statistics `mean_diff`, `std_diff`, `max_diff`, `min_diff`
computed over `diff`. -/
structure Caption where
  col : String
  mean_diff : ℚ
  std_diff : ℝ
  max_diff : ℚ
  min_diff : ℚ

/-- The formatted suptitle string of lines 86-88: the column name
together with the four statistics, each formatted `:.4f`. -/
noncomputable def Caption.display (c : Caption) : String × ℚ × ℝ × ℚ × ℚ :=
  (c.col, fmt4 c.mean_diff, fmt4R c.std_diff, fmt4 c.max_diff, fmt4 c.min_diff)

/-- Everything one call of `update_plot` draws: the two overlay traces
(axes[0]), the difference trace (axes[1]), and the single figure-level
caption shared by both charts. -/
structure RenderOutput where
  data1 : List ℚ
  data2 : List ℚ
  diff : List ℚ
  suptitle : Caption

/-- Assemble the render output of `update_plot` for the given column and
data, with the caption statistics of lines 82-85. -/
noncomputable def mkRender (col : String) (data1 data2 diff : List ℚ) :
    RenderOutput :=
  ⟨data1, data2, diff, ⟨col, npMean diff, npStd diff, npMax diff, npMin diff⟩⟩

/-- Lines 46-90, `update_plot(index)`: look up the column at `index`,
extract the two value sequences, subtract them with numpy semantics, and
draw.  `none` models the raising paths: an out-of-range index, a missing
or non-numeric column, a broadcast failure in `data2 - data1`, and the
empty-difference case (where `diff.max()` raises). -/
noncomputable def update_plot (segment1 segment2 : DataFrame)
    (numericalColumns : List String) (index : ℕ) : Option RenderOutput :=
  match numericalColumns.get? index with
  | none => none
  | some col =>
    match segment1.getCol col, segment2.getCol col with
    | some data1, some data2 =>
      match npSub data2 data1 with
      | none => none
      | some diff =>
        if diff.isEmpty then none else some (mkRender col data1 data2 diff)
    | some _, none => none
    | none, _ => none

/-- Lines 93-97, `next_plot`: advance the cursor by one, wrapping
modulo the column count.  Python's `%` on a positive modulus agrees
with `Int.emod`. -/
def next_plot (n : ℕ) (current_index : ℤ) : ℤ :=
  (current_index + 1) % (n : ℤ)

/-- Lines 100-104, `prev_plot`: retreat the cursor by one, wrapping
modulo the column count. -/
def prev_plot (n : ℕ) (current_index : ℤ) : ℤ :=
  (current_index - 1) % (n : ℤ)

/-! Concrete tables used to instantiate the theorems below. -/

/-- A one-column numeric table, column `a`. -/
def dfP : DataFrame := ⟨[("a", ColData.nums [1])]⟩

/-- A one-column numeric table, column `b` (disjoint from `dfP`). -/
def dfQ : DataFrame := ⟨[("b", ColData.nums [1])]⟩

/-- A one-column non-numeric table, column `t`. -/
def dfT1 : DataFrame := ⟨[("t", ColData.strs ["u"])]⟩

/-- Another one-column non-numeric table, also named `t`. -/
def dfT2 : DataFrame := ⟨[("t", ColData.strs ["v"])]⟩

/-- Render input: column `a` holding `[0, 0]`. -/
def segA : DataFrame := ⟨[("a", ColData.nums [0, 0])]⟩

/-- Render input: column `a` holding `[0, 2]`. -/
def segB : DataFrame := ⟨[("a", ColData.nums [0, 2])]⟩

/-- Render input with a single row: column `a` holding `[0]`. -/
def segOne : DataFrame := ⟨[("a", ColData.nums [0])]⟩

/-- Render input with two rows: column `a` holding `[1, 2]`. -/
def segTwo : DataFrame := ⟨[("a", ColData.nums [1, 2])]⟩

/-- Render input: column `a` holding `[1, 3]`. -/
def segW1 : DataFrame := ⟨[("a", ColData.nums [1, 3])]⟩

/-- Render input: column `a` holding `[2, 5]`. -/
def segW2 : DataFrame := ⟨[("a", ColData.nums [2, 5])]⟩

/-! Helper lemmas. -/

/-- Folding addition over a list sums it. -/
lemma foldl_add_eq_sum (l : List ℚ) (a : ℚ) :
    l.foldl (fun s x => s + x) a = a + l.sum := by
  induction l generalizing a with
  | nil => simp
  | cons x xs ih => simp [List.foldl_cons, ih, List.sum_cons]; ring

/-- The independent mean recomputation agrees with numpy's mean. -/
lemma specMean_eq_npMean (l : List ℚ) : specMean l = npMean l := by
  unfold specMean npMean
  rw [foldl_add_eq_sum, zero_add]

/-- The independent variance recomputation agrees with numpy's. -/
lemma specVar_eq_npVar (l : List ℚ) : specVar l = npVar l := by
  unfold specVar npVar npMean
  rw [foldl_add_eq_sum, zero_add, List.length_map]
  simp only [specMean_eq_npMean]
  rfl

/-- The independent standard-deviation recomputation agrees with numpy's
`std` (both with divisor `n`). -/
lemma specStd_eq_npStd (l : List ℚ) : specStd l = npStd l := by
  unfold specStd npStd
  rw [specVar_eq_npVar]

/-- The independent maximum recomputation agrees with numpy's max. -/
lemma specMax_eq_npMax (l : List ℚ) : specMax l = npMax l := by
  cases l with
  | nil => rfl
  | cons x xs => rfl

/-- The independent minimum recomputation agrees with numpy's min. -/
lemma specMin_eq_npMin (l : List ℚ) : specMin l = npMin l := by
  cases l with
  | nil => rfl
  | cons x xs => rfl

/-- Elementwise description of a successful numpy subtraction: at every
index lying inside both operands, the result subtracts pointwise. -/
lemma npSub_get (b a d : List ℚ) (hd : npSub b a = some d) (j : ℕ)
    (hb : j < b.length) (ha : j < a.length) (hdj : j < d.length) :
    d.get ⟨j, hdj⟩ = b.get ⟨j, hb⟩ - a.get ⟨j, ha⟩ := by
  unfold npSub at hd
  split at hd
  · cases hd
    simp [List.get_eq_getElem, List.getElem_zipWith]
  · split at hd
    · cases hd
      have hj : j = 0 := by
        simp only [List.length_cons, List.length_nil] at ha
        omega
      subst hj
      simp [List.get_eq_getElem, List.getElem_map]
    · cases hd
      have hj : j = 0 := by
        simp only [List.length_cons, List.length_nil] at hb
        omega
      subst hj
      simp [List.get_eq_getElem, List.getElem_map]
    · cases hd

/-- Reduction of `update_plot` on a successful render. -/
lemma update_plot_eq (seg1 seg2 : DataFrame) (cols : List String) (i : ℕ)
    (col : String) (d1 d2 diff : List ℚ)
    (hc : cols.get? i = some col) (h1 : seg1.getCol col = some d1)
    (h2 : seg2.getCol col = some d2) (hd : npSub d2 d1 = some diff)
    (hne : diff ≠ []) :
    update_plot seg1 seg2 cols i = some (mkRender col d1 d2 diff) := by
  have hne2 : diff.isEmpty = false := by
    cases diff with
    | nil => exact absurd rfl hne
    | cons x xs => rfl
  unfold update_plot
  simp only [hc, h1, h2, hd, hne2, Bool.false_eq_true, if_false]

/-- One step of `select_dtypes_number` over an explicit column list. -/
lemma select_dtypes_number_cons (p : String × ColData)
    (rest : List (String × ColData)) :
    select_dtypes_number ⟨p :: rest⟩ =
      if ColData.isNumeric p.2 then p.1 :: select_dtypes_number ⟨rest⟩
      else select_dtypes_number ⟨rest⟩ := by
  unfold select_dtypes_number
  rw [List.filter_cons]
  by_cases hb : ColData.isNumeric p.2
  · rw [if_pos hb, if_pos hb, List.map_cons]
  · rw [if_neg hb, if_neg hb]

/-- Restricting a table to known column names and then taking the
numeric ones filters the names by the numeric-dtype test. -/
lemma select_dtypes_number_select (df : DataFrame) (names : List String)
    (h : ∀ n ∈ names, n ∈ df.columns) :
    select_dtypes_number (DataFrame.select df names) =
      names.filter (fun n => DataFrame.isNumericCol df n) := by
  induction names with
  | nil => rfl
  | cons n ns ih =>
    have hn : n ∈ df.columns := h n (List.mem_cons_self n ns)
    have hsome : (df.cols.find? (fun p => p.1 == n)).isSome := by
      rw [List.find?_isSome]
      obtain ⟨p, hp, hpn⟩ := List.mem_map.mp hn
      exact ⟨p, hp, by simp [hpn]⟩
    obtain ⟨q, hq⟩ := Option.isSome_iff_exists.mp hsome
    have hnum : DataFrame.isNumericCol df n = ColData.isNumeric q.2 := by
      simp [DataFrame.isNumericCol, hq]
    have hsel : DataFrame.select df (n :: ns) =
        ⟨(n, q.2) :: (DataFrame.select df ns).cols⟩ := by
      simp [DataFrame.select, List.filterMap_cons, hq]
    have hrest := ih (fun m hm => h m (List.mem_cons_of_mem n hm))
    rw [hsel, select_dtypes_number_cons, hrest, List.filter_cons]
    simp only [hnum]

/-- The working column list is the first table's header order filtered
to the common numeric columns. -/
lemma numerical_columns_filter (df1 df2 : DataFrame) :
    numerical_columns df1 df2 =
      df1.columns.filter
        (fun c => df2.columns.contains c && DataFrame.isNumericCol df1 c) := by
  unfold numerical_columns
  rw [select_dtypes_number_select df1 (common_columns df1 df2)
    (fun n hn => (List.mem_filter.mp hn).1)]
  unfold common_columns
  rw [List.filter_filter]
  refine List.filter_congr ?_
  intro a _
  rw [Bool.and_comm]

/-- Modular arithmetic: adding the modulus does not change the residue. -/
lemma add_emod_self_int (a b : ℤ) : (a + b) % b = a % b := by
  have h := Int.add_mul_emod_self_left a b 1
  rw [mul_one] at h
  exact h

/-- Taking a residue before subtracting one does not change the final
residue. -/
lemma emod_sub_one_emod (a n : ℤ) : (a % n - 1) % n = (a - 1) % n := by
  conv_rhs => rw [Int.sub_emod]
  rw [Int.sub_emod (a % n) 1 n, Int.emod_emod_of_dvd a dvd_rfl]

/-- Iterating `next_plot` from an in-range cursor adds the iteration
count modulo the column count. -/
lemma next_plot_iterate (n : ℕ) (c : ℤ) (h0 : 0 ≤ c) (h1 : c < (n : ℤ))
    (k : ℕ) : (next_plot n)^[k] c = (c + k) % (n : ℤ) := by
  induction k with
  | zero => simp [Int.emod_eq_of_lt h0 h1]
  | succ k ih =>
    rw [Function.iterate_succ_apply', ih]
    unfold next_plot
    rw [Int.emod_add_emod]
    push_cast
    ring_nf

/-- Iterating `prev_plot` from an in-range cursor subtracts the
iteration count modulo the column count. -/
lemma prev_plot_iterate (n : ℕ) (c : ℤ) (h0 : 0 ≤ c) (h1 : c < (n : ℤ))
    (k : ℕ) : (prev_plot n)^[k] c = (c - k) % (n : ℤ) := by
  induction k with
  | zero => simp [Int.emod_eq_of_lt h0 h1]
  | succ k ih =>
    rw [Function.iterate_succ_apply', ih]
    unfold prev_plot
    rw [emod_sub_one_emod]
    push_cast
    ring_nf

/-! Claim theorems. -/

/-- C1: for every pair of loaded tables, the working column list
(NumericColumnSet) holds exactly the column names present in both tables
whose values are numeric in the first table, and the Loader succeeds
exactly when that list is non-empty (aborting with an error when it is
empty). -/
theorem loader_numeric_column_set (df1 df2 : DataFrame) :
    (∀ c, c ∈ numerical_columns df1 df2 ↔
        (c ∈ df1.columns ∧ c ∈ df2.columns ∧ df1.isNumericCol c = true)) ∧
    loaderSucceeds df1 df2 = !(numerical_columns df1 df2).isEmpty := by
  constructor
  · intro c
    rw [numerical_columns_filter]
    simp [List.mem_filter, Bool.and_eq_true, List.elem_iff, and_assoc]
  · unfold loaderSucceeds loader numerical_columns
    by_cases h :
        (select_dtypes_number (DataFrame.select df1 (common_columns df1 df2))).isEmpty
    · simp [h]
    · simp [h]

/-- C10: the navigable column list is the first file's header order
restricted to the columns that also appear in the second file and are
numeric in the first; being a pure function of the two parsed tables it
is deterministic across runs. -/
theorem numeric_columns_first_file_order (df1 df2 : DataFrame) :
    numerical_columns df1 df2 =
      df1.columns.filter
        (fun c => df2.columns.contains c && df1.isNumericCol c) :=
  numerical_columns_filter df1 df2

/-- C4 counterexample: the missing-input error is one fixed message,
identical whichever of the two paths is absent, so it does not identify
which path is missing. -/
theorem missing_input_message_uniform_cex :
    loadProgram false true (Except.ok dfP) (Except.ok dfQ) =
      Except.error "One or both CSV files not found" ∧
    loadProgram true false (Except.ok dfP) (Except.ok dfQ) =
      Except.error "One or both CSV files not found" ∧
    loadProgram false false (Except.ok dfP) (Except.ok dfQ) =
      Except.error "One or both CSV files not found" :=
  ⟨rfl, rfl, rfl⟩

/-- C4 (amended): if either path does not name an existing file the
program fails with the fixed missing-input message, before any parsing:
the result is this error whatever the two parse outcomes would be. -/
theorem missing_input_before_parse (ex1 ex2 : Bool)
    (p1 p2 : Except String DataFrame) (h : (ex1 && ex2) = false) :
    loadProgram ex1 ex2 p1 p2 =
      Except.error "One or both CSV files not found" := by
  unfold loadProgram
  rw [h]
  rfl

/-- Witness for the amended C4 at a concrete input: the second file is
missing and both parses would fail, yet the missing-input error wins. -/
theorem missing_input_before_parse_witness :
    ((true && false) = false) ∧
    loadProgram true false (Except.error "boom") (Except.error "boom") =
      Except.error "One or both CSV files not found" :=
  ⟨by decide, missing_input_before_parse true false (Except.error "boom")
    (Except.error "boom") (by decide)⟩

/-- C5 counterexample: two tables with disjoint column names make the
Loader fail with exactly the no-numerical-columns message, the same
message produced when the intersection is non-empty but no common column
is numeric; there is no distinct empty-intersection error. -/
theorem disjoint_columns_same_error_cex :
    common_columns dfP dfQ = [] ∧
    loader dfP dfQ = Except.error "No numerical columns found in the data" ∧
    common_columns dfT1 dfT2 = ["t"] ∧
    loader dfT1 dfT2 = Except.error "No numerical columns found in the data" :=
  ⟨rfl, rfl, rfl, rfl⟩

/-- C5 (amended): for disjoint column-name sets the Loader fails — with
the shared no-numerical-columns error rather than a distinct one — and
no ViewerState is ever constructed. -/
theorem disjoint_columns_abort (df1 df2 : DataFrame)
    (h : df1.columns.all (fun c => !(df2.columns.contains c)) = true) :
    loader df1 df2 = Except.error "No numerical columns found in the data" ∧
    mainState true true (Except.ok df1) (Except.ok df2) =
      Except.error "No numerical columns found in the data" := by
  have hcom : common_columns df1 df2 = [] := by
    unfold common_columns
    rw [List.filter_eq_nil_iff]
    intro a ha
    have hb := (List.all_eq_true.mp h) a ha
    simp only [Bool.not_eq_true'] at hb
    intro hmem
    rw [hb] at hmem
    exact Bool.false_ne_true hmem
  have hload : loader df1 df2 =
      Except.error "No numerical columns found in the data" := by
    unfold loader
    rw [hcom]
    rfl
  refine ⟨hload, ?_⟩
  have hprog : loadProgram true true (Except.ok df1) (Except.ok df2) =
      loader df1 df2 := rfl
  unfold mainState
  rw [hprog, hload]
  rfl

/-- Witness for the amended C5 at concrete disjoint tables. -/
theorem disjoint_columns_abort_witness :
    (dfP.columns.all (fun c => !(dfQ.columns.contains c)) = true) ∧
    (loader dfP dfQ = Except.error "No numerical columns found in the data" ∧
      mainState true true (Except.ok dfP) (Except.ok dfQ) =
        Except.error "No numerical columns found in the data") :=
  ⟨by decide, disjoint_columns_abort dfP dfQ (by decide)⟩

/-- C6: from any in-range cursor, composing `next_plot` N times (N the
numeric-column count) returns the cursor to its original value, and so
does composing `prev_plot` N times. -/
theorem cursor_cycle (n : ℕ) (c : ℤ) (_hn : 0 < n) (h0 : 0 ≤ c)
    (h1 : c < (n : ℤ)) :
    (next_plot n)^[n] c = c ∧ (prev_plot n)^[n] c = c := by
  constructor
  · rw [next_plot_iterate n c h0 h1 n, add_emod_self_int,
      Int.emod_eq_of_lt h0 h1]
  · rw [prev_plot_iterate n c h0 h1 n, Int.sub_emod, Int.emod_self, sub_zero,
      Int.emod_emod_of_dvd c dvd_rfl, Int.emod_eq_of_lt h0 h1]

/-- Witness for C6 with three columns and cursor 2. -/
theorem cursor_cycle_witness :
    0 < 3 ∧ 0 ≤ (2 : ℤ) ∧ (2 : ℤ) < ((3 : ℕ) : ℤ) ∧
      ((next_plot 3)^[3] 2 = 2 ∧ (prev_plot 3)^[3] 2 = 2) :=
  ⟨by decide, by decide, by decide,
    cursor_cycle 3 2 (by decide) (by decide) (by decide)⟩

/-- C7: from any in-range cursor, `next_plot` then `prev_plot` returns
to the same value, and so does `prev_plot` then `next_plot`. -/
theorem cursor_inverse (n : ℕ) (c : ℤ) (_hn : 0 < n) (h0 : 0 ≤ c)
    (h1 : c < (n : ℤ)) :
    prev_plot n (next_plot n c) = c ∧ next_plot n (prev_plot n c) = c := by
  constructor
  · unfold next_plot prev_plot
    rw [emod_sub_one_emod, add_sub_cancel_right, Int.emod_eq_of_lt h0 h1]
  · unfold next_plot prev_plot
    rw [Int.emod_add_emod, sub_add_cancel, Int.emod_eq_of_lt h0 h1]

/-- Witness for C7 with three columns and cursor 0. -/
theorem cursor_inverse_witness :
    0 < 3 ∧ 0 ≤ (0 : ℤ) ∧ (0 : ℤ) < ((3 : ℕ) : ℤ) ∧
      (prev_plot 3 (next_plot 3 0) = 0 ∧ next_plot 3 (prev_plot 3 0) = 0) :=
  ⟨by decide, by decide, by decide,
    cursor_inverse 3 0 (by decide) (by decide) (by decide)⟩

/-- C8: the cursor starts at 0 (any successfully constructed ViewerState
has `current_index = 0`), both navigation steps land back inside
`[0, N)` by modular arithmetic, and `prev_plot` from 0 wraps to N−1. -/
theorem cursor_range_invariant (n : ℕ) (c : ℤ) (ex1 ex2 : Bool)
    (p1 p2 : Except String DataFrame) (hn : 0 < n) :
    (∀ vs, mainState ex1 ex2 p1 p2 = Except.ok vs → vs.current_index = 0) ∧
    (0 ≤ next_plot n c ∧ next_plot n c < (n : ℤ)) ∧
    (0 ≤ prev_plot n c ∧ prev_plot n c < (n : ℤ)) ∧
    prev_plot n 0 = (n : ℤ) - 1 := by
  have hn0 : (n : ℤ) ≠ 0 := by
    intro hcontra
    rw [Int.natCast_eq_zero] at hcontra
    omega
  have hnp : (0 : ℤ) < (n : ℤ) := by exact_mod_cast hn
  refine ⟨?_, ⟨Int.emod_nonneg _ hn0, Int.emod_lt_of_pos _ hnp⟩,
    ⟨Int.emod_nonneg _ hn0, Int.emod_lt_of_pos _ hnp⟩, ?_⟩
  · intro vs h
    unfold mainState at h
    cases hl : loadProgram ex1 ex2 p1 p2 with
    | error e =>
      rw [hl] at h
      exact absurd h (by simp [Except.map])
    | ok lo =>
      rw [hl] at h
      have hvs : (⟨lo, 0⟩ : ViewerState) = vs := by
        have := h
        simp only [Except.map] at this
        exact Except.ok.inj this
      rw [← hvs]
  · unfold prev_plot
    have h1n : (1 : ℤ) ≤ (n : ℤ) := hnp
    calc ((0 : ℤ) - 1) % (n : ℤ) = (-1) % (n : ℤ) := by norm_num
      _ = (-1 + (n : ℤ)) % (n : ℤ) := (add_emod_self_int (-1) (n : ℤ)).symm
      _ = (n : ℤ) - 1 := by
          rw [Int.emod_eq_of_lt (by omega) (by omega)]
          ring

/-- Witness for C8: two columns, cursor 1, a concrete successful load. -/
theorem cursor_range_invariant_witness :
    0 < 2 ∧
    ((∀ vs, mainState true true (Except.ok dfP) (Except.ok dfP) =
        Except.ok vs → vs.current_index = 0) ∧
      (0 ≤ next_plot 2 1 ∧ next_plot 2 1 < ((2 : ℕ) : ℤ)) ∧
      (0 ≤ prev_plot 2 1 ∧ prev_plot 2 1 < ((2 : ℕ) : ℤ)) ∧
      prev_plot 2 0 = ((2 : ℕ) : ℤ) - 1) :=
  ⟨by decide, cursor_range_invariant 2 1 true true (Except.ok dfP)
    (Except.ok dfP) (by decide)⟩

/-- C2: whenever `update_plot` renders a column, every index inside both
series satisfies `diff[j] = data2[j] - data1[j]`, and the four caption
statistics are the mean, (population) standard deviation, maximum and
minimum directly recomputed over the full difference sequence. -/
theorem update_plot_diff_and_stats (seg1 seg2 : DataFrame)
    (cols : List String) (i : ℕ) (col : String) (d1 d2 diff : List ℚ)
    (hc : cols.get? i = some col) (h1 : seg1.getCol col = some d1)
    (h2 : seg2.getCol col = some d2) (hd : npSub d2 d1 = some diff)
    (hne : diff ≠ []) :
    update_plot seg1 seg2 cols i = some (mkRender col d1 d2 diff) ∧
    (∀ j (hj1 : j < d1.length) (hj2 : j < d2.length) (hjd : j < diff.length),
        diff.get ⟨j, hjd⟩ = d2.get ⟨j, hj2⟩ - d1.get ⟨j, hj1⟩) ∧
    (mkRender col d1 d2 diff).suptitle.mean_diff = specMean diff ∧
    (mkRender col d1 d2 diff).suptitle.std_diff = specStd diff ∧
    (mkRender col d1 d2 diff).suptitle.max_diff = specMax diff ∧
    (mkRender col d1 d2 diff).suptitle.min_diff = specMin diff := by
  refine ⟨update_plot_eq seg1 seg2 cols i col d1 d2 diff hc h1 h2 hd hne,
    fun j hj1 hj2 hjd => npSub_get d2 d1 diff hd j hj2 hj1 hjd,
    (specMean_eq_npMean diff).symm, (specStd_eq_npStd diff).symm,
    (specMax_eq_npMax diff).symm, (specMin_eq_npMin diff).symm⟩

/-- Witness for C2 on concrete two-row tables. -/
theorem update_plot_diff_and_stats_witness :
    ((["a"] : List String).get? 0 = some "a") ∧
    (segW1.getCol "a" = some [1, 3]) ∧
    (segW2.getCol "a" = some [2, 5]) ∧
    (npSub [2, 5] [1, 3] = some [1, 2]) ∧
    (([1, 2] : List ℚ) ≠ []) ∧
    (update_plot segW1 segW2 ["a"] 0 =
        some (mkRender "a" [1, 3] [2, 5] [1, 2]) ∧
      (∀ j (hj1 : j < ([1, 3] : List ℚ).length)
          (hj2 : j < ([2, 5] : List ℚ).length)
          (hjd : j < ([1, 2] : List ℚ).length),
          ([1, 2] : List ℚ).get ⟨j, hjd⟩ =
            ([2, 5] : List ℚ).get ⟨j, hj2⟩ - ([1, 3] : List ℚ).get ⟨j, hj1⟩) ∧
      (mkRender "a" [1, 3] [2, 5] [1, 2]).suptitle.mean_diff =
        specMean [1, 2] ∧
      (mkRender "a" [1, 3] [2, 5] [1, 2]).suptitle.std_diff =
        specStd [1, 2] ∧
      (mkRender "a" [1, 3] [2, 5] [1, 2]).suptitle.max_diff =
        specMax [1, 2] ∧
      (mkRender "a" [1, 3] [2, 5] [1, 2]).suptitle.min_diff =
        specMin [1, 2]) :=
  ⟨rfl, rfl, rfl, by norm_num [npSub], by decide,
    update_plot_diff_and_stats segW1 segW2 ["a"] 0 "a" [1, 3] [2, 5] [1, 2]
      rfl rfl rfl (by norm_num [npSub]) (by decide)⟩

/-- C3 counterexample: for a rendered column whose difference series is
`[0, 2]`, the standard deviation placed in the caption is 1 (the
population standard deviation, divisor n), while the sample standard
deviation (divisor n−1) of the same series is √2 ≠ 1. -/
theorem caption_std_not_sample_cex :
    (update_plot segA segB ["a"] 0).map (fun o => o.suptitle.std_diff) =
      some 1 ∧
    (update_plot segA segB ["a"] 0).map (fun o => sampleStd o.diff) =
      some (Real.sqrt 2) ∧
    (1 : ℝ) ≠ Real.sqrt 2 := by
  have h : update_plot segA segB ["a"] 0 =
      some (mkRender "a" [0, 0] [0, 2] [0, 2]) :=
    update_plot_eq segA segB ["a"] 0 "a" [0, 0] [0, 2] [0, 2] rfl rfl rfl
      (by norm_num [npSub]) (by decide)
  refine ⟨?_, ?_, ?_⟩
  · rw [h]
    show some (npStd [0, 2]) = some 1
    have hvar : npVar [0, 2] = 1 := by norm_num [npVar, npMean]
    unfold npStd
    rw [hvar]
    norm_num
  · rw [h]
    show some (sampleStd [0, 2]) = some (Real.sqrt 2)
    have hrad : ((([0, 2] : List ℚ).map
          (fun x => (x - specMean [0, 2]) ^ 2)).foldl (fun s x => s + x) 0)
        / ((([0, 2] : List ℚ).length : ℚ) - 1) = 2 := by
      norm_num [specMean]
    unfold sampleStd
    rw [hrad]
    norm_num
  · intro hcontra
    have h2 : Real.sqrt 2 ^ 2 = 2 := Real.sq_sqrt (by norm_num)
    rw [← hcontra] at h2
    norm_num at h2

/-- C3 (amended): the standard deviation shown in the caption is the
population standard deviation (divisor n) of the difference series, and
the single combined caption shared by both charts displays the column
name together with the four statistics each rounded to 4 decimal
places. -/
theorem caption_std_population (seg1 seg2 : DataFrame) (cols : List String)
    (i : ℕ) (col : String) (d1 d2 diff : List ℚ)
    (hc : cols.get? i = some col) (h1 : seg1.getCol col = some d1)
    (h2 : seg2.getCol col = some d2) (hd : npSub d2 d1 = some diff)
    (hne : diff ≠ []) :
    update_plot seg1 seg2 cols i = some (mkRender col d1 d2 diff) ∧
    (mkRender col d1 d2 diff).suptitle.std_diff = specStd diff ∧
    Caption.display (mkRender col d1 d2 diff).suptitle =
      (col, fmt4 (specMean diff), fmt4R (specStd diff), fmt4 (specMax diff),
        fmt4 (specMin diff)) := by
  refine ⟨update_plot_eq seg1 seg2 cols i col d1 d2 diff hc h1 h2 hd hne,
    (specStd_eq_npStd diff).symm, ?_⟩
  show (col, fmt4 (npMean diff), fmt4R (npStd diff), fmt4 (npMax diff),
    fmt4 (npMin diff)) = _
  rw [specMean_eq_npMean, specStd_eq_npStd, specMax_eq_npMax,
    specMin_eq_npMin]

/-- Witness for the amended C3 on concrete two-row tables. -/
theorem caption_std_population_witness :
    ((["a"] : List String).get? 0 = some "a") ∧
    (segW1.getCol "a" = some [1, 3]) ∧
    (segW2.getCol "a" = some [2, 5]) ∧
    (npSub [2, 5] [1, 3] = some [1, 2]) ∧
    (([1, 2] : List ℚ) ≠ []) ∧
    (update_plot segW1 segW2 ["a"] 0 =
        some (mkRender "a" [1, 3] [2, 5] [1, 2]) ∧
      (mkRender "a" [1, 3] [2, 5] [1, 2]).suptitle.std_diff =
        specStd [1, 2] ∧
      Caption.display (mkRender "a" [1, 3] [2, 5] [1, 2]).suptitle =
        ("a", fmt4 (specMean [1, 2]), fmt4R (specStd [1, 2]),
          fmt4 (specMax [1, 2]), fmt4 (specMin [1, 2]))) :=
  ⟨rfl, rfl, rfl, by norm_num [npSub], by decide,
    caption_std_population segW1 segW2 ["a"] 0 "a" [1, 3] [2, 5] [1, 2]
      rfl rfl rfl (by norm_num [npSub]) (by decide)⟩

/-- C9 counterexample: with series of lengths 1 and 2 the render
succeeds by numpy broadcasting and produces a difference series of
length 2, not of length `min 1 2 = 1`. -/
theorem diff_length_broadcast_cex :
    (segOne.getCol "a").map List.length = some 1 ∧
    (segTwo.getCol "a").map List.length = some 2 ∧
    (update_plot segOne segTwo ["a"] 0).map (fun o => o.diff.length) =
      some 2 ∧
    (update_plot segOne segTwo ["a"] 0).map (fun o => o.diff.length) ≠
      some (min 1 2) := by
  have h : update_plot segOne segTwo ["a"] 0 =
      some (mkRender "a" [0] [1, 2] [1, 2]) :=
    update_plot_eq segOne segTwo ["a"] 0 "a" [0] [1, 2] [1, 2] rfl rfl rfl
      (by norm_num [npSub]) (by decide)
  refine ⟨rfl, rfl, ?_, ?_⟩
  · rw [h]
    rfl
  · rw [h]
    intro hcontra
    have hx := Option.some.inj hcontra
    simp [mkRender] at hx

/-- C9 (amended): for a chosen column whose two series have equal
lengths, the difference series produced by the render is their
elementwise subtraction `series2 - series1`, and its length is that
common length, `min(len(series1), len(series2))`. -/
theorem diff_equal_length_render (seg1 seg2 : DataFrame)
    (cols : List String) (i : ℕ) (col : String) (d1 d2 : List ℚ)
    (hc : cols.get? i = some col) (h1 : seg1.getCol col = some d1)
    (h2 : seg2.getCol col = some d2) (hlen : d1.length = d2.length)
    (hne : d1 ≠ []) :
    update_plot seg1 seg2 cols i =
      some (mkRender col d1 d2 (List.zipWith (fun y x => y - x) d2 d1)) ∧
    (List.zipWith (fun y x => y - x) d2 d1).length =
      min d1.length d2.length := by
  have hsub : npSub d2 d1 = some (List.zipWith (fun y x => y - x) d2 d1) := by
    unfold npSub
    rw [if_pos hlen.symm]
  have hlen2 : (List.zipWith (fun y x => y - x) d2 d1).length =
      min d1.length d2.length := by
    rw [List.length_zipWith]
    omega
  have hd1pos : 0 < d1.length := List.length_pos.mpr hne
  have hnil : List.zipWith (fun y x => y - x) d2 d1 ≠ [] := by
    rw [← List.length_pos, hlen2]
    omega
  exact ⟨update_plot_eq seg1 seg2 cols i col d1 d2 _ hc h1 h2 hsub hnil,
    hlen2⟩

/-- Witness for the amended C9 on concrete equal-length tables. -/
theorem diff_equal_length_render_witness :
    ((["a"] : List String).get? 0 = some "a") ∧
    (segW1.getCol "a" = some [1, 3]) ∧
    (segW2.getCol "a" = some [2, 5]) ∧
    (([1, 3] : List ℚ).length = ([2, 5] : List ℚ).length) ∧
    (([1, 3] : List ℚ) ≠ []) ∧
    (update_plot segW1 segW2 ["a"] 0 =
        some (mkRender "a" [1, 3] [2, 5]
          (List.zipWith (fun y x => y - x) [2, 5] [1, 3])) ∧
      (List.zipWith (fun y x => y - x) ([2, 5] : List ℚ)
          ([1, 3] : List ℚ)).length =
        min ([1, 3] : List ℚ).length ([2, 5] : List ℚ).length) :=
  ⟨rfl, rfl, rfl, by decide, by decide,
    diff_equal_length_render segW1 segW2 ["a"] 0 "a" [1, 3] [2, 5]
      rfl rfl rfl (by decide) (by decide)⟩
